import Mathlib

/-!
Shallow embedding of src/matchit.py (a single-player tile matching game)
and proofs about its behaviour.

The game state (`MatchGame`) mirrors the attributes of the Python class
`MatchGame` together with the canvas items it manipulates:

* 16 rectangles, canvas item ids 1..16, created first; slot `i` (0-based)
  is the rectangle with item id `i + 1`.  Each rectangle carries a tag
  (the string `"box current"`, `"selected"` or `"done"` in the source,
  modelled by `Tag.boxCurrent`, `Tag.selected`, `Tag.done`) and a fill
  colour (`'yellow'` or the player colour, never `'yellow'` since the
  colour argument is one of blue/green/magenta).
* image items (tag `"image"`), created with fresh ids starting at 17 and
  deleted wholesale by `disappear`.
* `folder_images` — the shuffled deck `2 * image_list`; tile identifiers
  are modelled by an arbitrary type `α` with decidable equality (the
  source compares `tkinter.PhotoImage` objects, one per distinct file).
* `image_to_compare` — the selection buffer.
* `pending` — the number of `canvas.after(self.timer, self.disappear)`
  callbacks scheduled but not yet fired.

Shuffling (`random.shuffle`) is modelled by quantifying over permutations
of the deck (`List.Perm`).
-/

namespace Matchit

/-- Tag of a canvas item: the source uses the tag strings
`"box current"` (concealed rectangle), `"selected"` (revealed rectangle),
`"done"` (matched rectangle) and `"image"` (image item). -/
inductive Tag where
  | boxCurrent
  | selected
  | done
  | image
  deriving DecidableEq

/-- Fill colour of a rectangle: `'yellow'` or the player colour
(one of blue/green/magenta, hence distinct from yellow). -/
inductive Fill where
  | yellow
  | playerColor
  deriving DecidableEq

/-- State of the Python `MatchGame` object plus its canvas items. -/
structure MatchGame (α : Type) where
  /-- Python `self.score` -/
  score : Int
  /-- Python `self.count` — number of completed pair evaluations -/
  count : Nat
  /-- Python `self.folder_images` — the shuffled deck -/
  folder_images : List α
  /-- tags of the 16 rectangles, slot i = canvas item id i+1 -/
  tags : List Tag
  /-- fill colours of the 16 rectangles -/
  fills : List Fill
  /-- ids of the currently existing image items (all tagged `"image"`) -/
  image_ids : List Nat
  /-- next canvas item id to be allocated -/
  next_id : Nat
  /-- Python `self.image_to_compare` — the selection buffer -/
  image_to_compare : List α
  /-- number of scheduled, not yet fired, `disappear` callbacks -/
  pending : Nat
  deriving DecidableEq

/-- The state built by `MatchGame.__init__` once the images are loaded:
score 100, count 0, the given (shuffled) deck, 16 yellow concealed
rectangles (ids 1..16), no image items, empty buffer, no timer. -/
def init {α : Type} (deck : List α) : MatchGame α :=
  { score := 100
    count := 0
    folder_images := deck
    tags := List.replicate 16 Tag.boxCurrent
    fills := List.replicate 16 Fill.yellow
    image_ids := []
    next_id := 17
    image_to_compare := []
    pending := 0 }

/-- Model of `canvas.itemcget(item, "tag")`: the tag of canvas item `id`, `none`
if no such item exists.  Rectangles occupy ids 1..16; every other live
item is an image item tagged `"image"`. -/
def itemTag {α : Type} (s : MatchGame α) (id : Nat) : Option Tag :=
  if 1 ≤ id ∧ id ≤ 16 then s.tags[id - 1]?
  else if id ∈ s.image_ids then some Tag.image
  else none

/-- Model of `canvas.itemcget(item, "fill")`: the fill of rectangle `id`
(image items have no fill, modelled by `none`). -/
def itemFill {α : Type} (s : MatchGame α) (id : Nat) : Option Fill :=
  if 1 ≤ id ∧ id ≤ 16 then s.fills[id - 1]? else none

/-- Model of `MatchGame.match_check`: when the buffer holds two entries,
increment `count`, retag the `"selected"` rectangles to `"done"` with the
player colour when the two buffered identifiers are equal, subtract 10
from the score when `count > 13` (match or not), and schedule one
`disappear` callback.  Otherwise do nothing. -/
def match_check {α : Type} [DecidableEq α] (s : MatchGame α) : MatchGame α :=
  if s.image_to_compare.length = 2 then
    { s with
      count := s.count + 1
      tags :=
        if s.image_to_compare[0]? = s.image_to_compare[1]? then
          s.tags.map (fun t => if t = Tag.selected then Tag.done else t)
        else s.tags
      fills :=
        if s.image_to_compare[0]? = s.image_to_compare[1]? then
          (s.tags.zip s.fills).map
            (fun p => if p.1 = Tag.selected then Fill.playerColor else p.2)
        else s.fills
      score := if 13 < s.count + 1 then s.score - 10 else s.score
      pending := s.pending + 1 }
  else s

/-- Model of `MatchGame.play`, invoked with the canvas item id returned by
`find_closest` for the click position.  When the buffer holds at most one
entry and the clicked item is a yellow rectangle tagged `"box current"`,
the rectangle is retagged `"selected"`, `folder_images[item_id - 1]` is
read (out of range gives `none`, the Python `IndexError`), an image item
is created and the identifier appended to the buffer; then `match_check`
runs.  With a full buffer the click changes nothing. -/
def play {α : Type} [DecidableEq α] (s : MatchGame α) (item_id : Nat) :
    Option (MatchGame α) :=
  if s.image_to_compare.length ≤ 1 then
    if itemTag s item_id = some Tag.boxCurrent ∧
        itemFill s item_id = some Fill.yellow then
      match s.folder_images[item_id - 1]? with
      | none => none
      | some img =>
          some (match_check
            { s with
              tags := s.tags.set (item_id - 1) Tag.selected
              image_ids := s.image_ids ++ [s.next_id]
              next_id := s.next_id + 1
              image_to_compare := s.image_to_compare ++ [img] })
    else some (match_check s)
  else some s

/-- Model of `MatchGame.disappear` (the timer callback): delete all image items,
clear the buffer, retag `"selected"` rectangles back to `"box current"`.
One pending callback is consumed. -/
def disappear {α : Type} (s : MatchGame α) : MatchGame α :=
  { s with
    image_ids := []
    image_to_compare := []
    tags := s.tags.map (fun t => if t = Tag.selected then Tag.boxCurrent else t)
    pending := s.pending - 1 }

/-- Model of `MatchGame.restart`: reset score and count, reshuffle the deck
(`deck` is the result of the shuffle), and reconfigure the items tagged
`"done"` to yellow `"box current"`.  Nothing else is touched: the buffer,
the `"selected"` rectangles, the image items and any pending timer
survive. -/
def restart {α : Type} (s : MatchGame α) (deck : List α) : MatchGame α :=
  { s with
    score := 100
    count := 0
    folder_images := deck
    fills :=
      (s.tags.zip s.fills).map
        (fun p => if p.1 = Tag.done then Fill.yellow else p.2)
    tags := s.tags.map (fun t => if t = Tag.done then Tag.boxCurrent else t) }

/-- The game-over condition tested in `play`:
`len(self.canvas.find_withtag("done")) == 16` (image items are tagged
`"image"`, so only rectangles count). -/
def game_over_cond {α : Type} (s : MatchGame α) : Bool :=
  s.tags.countP (fun t => decide (t = Tag.done)) == 16

/-- A folder as `directory_type` sees it: its name, whether
`os.path.exists` holds, and its file listing (`os.listdir`). -/
structure Folder where
  name : String
  present : Bool
  files : List String
  deriving DecidableEq

/-- Index of the last `'.'` in a character list, if any
(`p.rfind('.')` in `os.path.splitext`). -/
def last_dot : List Char → Option Nat
  | [] => none
  | c :: rest =>
      match last_dot rest with
      | some i => some (i + 1)
      | none => if c = '.' then some 0 else none

/-- The extension `os.path.splitext(name)[1]` of a bare file name
(no path separators): the suffix from the last dot, unless every
character before that dot is itself a dot (leading dots are part of the
base name, so `".gif"` has no extension). -/
def splitext_ext (cs : List Char) : List Char :=
  match last_dot cs with
  | none => []
  | some i => if (cs.take i).all (fun c => c = '.') then [] else cs.drop i

/-- The test `os.path.splitext(file_name)[1] == '.gif'` used by
`directory_type` to count images. -/
def is_gif_split (name : String) : Bool :=
  decide (splitext_ext name.data = ".gif".data)

/-- The test `file_name.endswith('.gif')` used by `MatchGame.__init__`
to load images. -/
def is_gif_suffix (name : String) : Bool :=
  List.isSuffixOf ".gif".data name.data

/-- Model of `directory_type`: reject a non-existent folder; otherwise count the
files whose `splitext` extension is `.gif` and reject the folder unless
there are at least 8, else return it. -/
def directory_type (f : Folder) : Except String String :=
  if f.present then
    if 8 ≤ f.files.countP is_gif_split then Except.ok f.name
    else Except.error (f.name ++ " must contain at least 8 gif images")
  else Except.error (f.name ++ " is not a valid folder")

/-- Python `self.image_list` as built by `MatchGame.__init__`: the files of the
folder ending in `.gif`, one image per file (distinct files give
distinct `PhotoImage` objects, so the file name stands for the image). -/
def image_list (f : Folder) : List String :=
  f.files.filter is_gif_suffix

/-- Python `2 * self.image_list`: the deck before shuffling. -/
def folder_images_of {α : Type} (l : List α) : List α :=
  l ++ l

/-- Model of `main` up to the construction of the `MatchGame` object: argument
validation (`directory_type`) runs first and aborts on error, so the
game object is built only for folders that pass validation.  `deck`
stands for the shuffle of `2 * image_list`. -/
def main_session (f : Folder) (deck : List String) :
    Except String (MatchGame String) :=
  Except.map (fun _ => init deck) (directory_type f)

/-- An external event: a click resolved to a canvas item id, or the
firing of the `disappear` timer. -/
inductive Ev where
  | click (id : Nat)
  | tick
  deriving DecidableEq

/-- Run one event on a state (a crashing click leaves the state, and the
timer only fires when one is pending). -/
def stepEv {α : Type} [DecidableEq α] (s : MatchGame α) (e : Ev) : MatchGame α :=
  match e with
  | Ev.click id => (play s id).getD s
  | Ev.tick => if 0 < s.pending then disappear s else s

/-- Run a list of events from a state. -/
def runTrace {α : Type} [DecidableEq α] (s : MatchGame α) (evs : List Ev) :
    MatchGame α :=
  evs.foldl stepEv s

/-- One step of the game: a click on any item id (the handler is bound to
every left click on the canvas), the firing of a pending timer, or a
click on the RESTART button (with some permutation of the deck as the
shuffle result). -/
inductive Step {α : Type} [DecidableEq α] : MatchGame α → MatchGame α → Prop where
  | click (s : MatchGame α) (item_id : Nat) (s' : MatchGame α) :
      play s item_id = some s' → Step s s'
  | timer (s : MatchGame α) : 0 < s.pending → Step s (disappear s)
  | restartStep (s : MatchGame α) (deck : List α) :
      deck.Perm s.folder_images → Step s (restart s deck)

/-- The states reachable in a session started from the image list
`images`: the initial deck is some shuffle of `2 * image_list`
(`images ++ images`) and then any sequence of steps runs. -/
def Reachable {α : Type} [DecidableEq α] (images : List α) (s : MatchGame α) :
    Prop :=
  ∃ deck : List α, deck.Perm (images ++ images) ∧
    Relation.ReflTransGen Step (init deck) s

/-- Structural invariant of a session built from `n` images: 16 tags and
fills, a deck of `2 * n` identifiers, and a buffer of at most two
entries. -/
structure Inv {α : Type} (n : Nat) (s : MatchGame α) : Prop where
  tags_len : s.tags.length = 16
  fills_len : s.fills.length = 16
  deck_len : s.folder_images.length = 2 * n
  buf_le : s.image_to_compare.length ≤ 2

/-! Concrete sessions used to evaluate the definitions.  `deck0` is the
identity shuffle of eight images, so canvas item `i` (1-based) covers
tile `deck0[i - 1]`: items 1 and 9 are the pair of tile 1, items 2 and
10 the pair of tile 2, and so on. -/

/-- Eight distinct tile identifiers. -/
def images8 : List Nat := [1, 2, 3, 4, 5, 6, 7, 8]

/-- The unshuffled deck `2 * image_list` for `images8`. -/
def deck0 : List Nat := folder_images_of images8

/-- One full mismatch round: reveal items 1 and 2 (tiles 1 and 2), then
let the timer fire. -/
def mismatch_round : List Ev := [Ev.click 1, Ev.click 2, Ev.tick]

/-- Thirteen mismatch rounds followed by revealing item 1: attempt count
13, score 100, tile 1 in the buffer. -/
def c1_trace : List Ev :=
  (List.replicate 13 mismatch_round).flatten ++ [Ev.click 1]

/-- The state reached by `c1_trace` from a fresh session on `deck0`. -/
def c1_pre : MatchGame Nat := runTrace (init deck0) c1_trace

/-- The state after then clicking item 9, the matching partner of
item 1 (both hold tile 1): the fourteenth pair evaluation, a match. -/
def c1_post : MatchGame Nat := stepEv c1_pre (Ev.click 9)

/-- A fresh session on `deck0` after revealing item 1. -/
def c2_mid : MatchGame Nat := stepEv (init deck0) (Ev.click 1)

/-- State after then also revealing item 9: an immediately matching pair. -/
def c2_post : MatchGame Nat := stepEv c2_mid (Ev.click 9)

/-- A state with an equal pair in the buffer and two revealed slots. -/
def c2_wstate : MatchGame Nat :=
  { score := 100
    count := 3
    folder_images := deck0
    tags := ((List.replicate 16 Tag.boxCurrent).set 3 Tag.selected).set 11 Tag.selected
    fills := List.replicate 16 Fill.yellow
    image_ids := [17, 18]
    next_id := 19
    image_to_compare := [4, 4]
    pending := 0 }

/-- A fresh session on `deck0` after revealing item 1 (slot 0 is
`selected` and the buffer holds tile 1) and then clicking RESTART with
the identity shuffle. -/
def c3_res : MatchGame Nat := restart (stepEv (init deck0) (Ev.click 1)) deck0

/-- A fresh session on `deck0` after revealing the mismatching items 1
and 2: the buffer is full and a `disappear` timer is pending. -/
def c9_pre : MatchGame Nat := runTrace (init deck0) [Ev.click 1, Ev.click 2]

/-- State after then clicking RESTART (identity shuffle) while that timer is
still pending. -/
def c9_res : MatchGame Nat := restart c9_pre deck0

/-- A session whose slots 0 and 8 are matched (items 1 and 9 were an
equal pair). -/
def c6_state : MatchGame Nat :=
  stepEv (stepEv (init deck0) (Ev.click 1)) (Ev.click 9)

/-- A full-buffer state: items 1 and 2 revealed, resolution pending. -/
def c7_state : MatchGame Nat := runTrace (init deck0) [Ev.click 1, Ev.click 2]

/-- A finished board: all 16 rectangles tagged `"done"`. -/
def c8_state : MatchGame Nat :=
  { score := 80
    count := 15
    folder_images := deck0
    tags := List.replicate 16 Tag.done
    fills := List.replicate 16 Fill.playerColor
    image_ids := []
    next_id := 49
    image_to_compare := []
    pending := 0 }

/-- A state with a full buffer, used to evaluate the scoring rule. -/
def c1_wstate : MatchGame Nat :=
  { score := 40
    count := 20
    folder_images := deck0
    tags := ((List.replicate 16 Tag.boxCurrent).set 0 Tag.selected).set 1 Tag.selected
    fills := List.replicate 16 Fill.yellow
    image_ids := [21, 22]
    next_id := 23
    image_to_compare := [1, 2]
    pending := 0 }

/-- A folder that passes validation with nine `.gif` files. -/
def f9 : Folder :=
  { name := "images"
    present := true
    files := ["a.gif", "b.gif", "c.gif", "d.gif", "e.gif", "f.gif",
              "g.gif", "h.gif", "i.gif"] }

/-- A folder with exactly eight `.gif` files. -/
def f8 : Folder :=
  { name := "pics"
    present := true
    files := ["a.gif", "b.gif", "c.gif", "d.gif", "e.gif", "f.gif",
              "g.gif", "h.gif"] }

/-! Helper lemmas: the structural invariant is preserved by every
operation, and reachability is closed under events and traces. -/

/-- Lemma: `match_check` never touches the selection buffer: the buffer is
cleared only by `disappear`. -/
theorem match_check_buffer {α : Type} [DecidableEq α] (s : MatchGame α) :
    (match_check s).image_to_compare = s.image_to_compare := by
  unfold match_check
  split <;> rfl

/-- Lemma: `match_check` never touches the deck. -/
theorem match_check_deck {α : Type} [DecidableEq α] (s : MatchGame α) :
    (match_check s).folder_images = s.folder_images := by
  unfold match_check
  split <;> rfl

/-- A no-op pair evaluation: with fewer than two buffered entries,
`match_check` does nothing. -/
theorem match_check_of_short {α : Type} [DecidableEq α] (s : MatchGame α)
    (h : s.image_to_compare.length ≤ 1) : match_check s = s := by
  unfold match_check
  rw [if_neg]
  omega

/-- Invariant preservation for `match_check`. -/
theorem match_check_inv {α : Type} [DecidableEq α] {n : Nat}
    {s : MatchGame α} (h : Inv n s) : Inv n (match_check s) := by
  by_cases h2 : s.image_to_compare.length = 2
  · refine ⟨?_, ?_, ?_, ?_⟩
    · unfold match_check
      rw [if_pos h2]
      dsimp only
      split <;> simp [h.tags_len]
    · unfold match_check
      rw [if_pos h2]
      dsimp only
      split <;> simp [h.tags_len, h.fills_len]
    · unfold match_check
      rw [if_pos h2]
      exact h.deck_len
    · unfold match_check
      rw [if_pos h2]
      exact h.buf_le
  · unfold match_check
    rw [if_neg h2]
    exact h

/-- Invariant preservation for `play`. -/
theorem play_inv {α : Type} [DecidableEq α] {n : Nat}
    {s s' : MatchGame α} {id : Nat} (h : Inv n s)
    (hp : play s id = some s') : Inv n s' := by
  by_cases hbuf : s.image_to_compare.length ≤ 1
  · by_cases hav : itemTag s id = some Tag.boxCurrent ∧
        itemFill s id = some Fill.yellow
    · cases hgi : s.folder_images[id - 1]? with
      | none => simp [play, hbuf, hav, hgi] at hp
      | some img =>
          simp only [play, if_pos hbuf, if_pos hav, hgi] at hp
          cases hp
          apply match_check_inv
          refine ⟨?_, h.fills_len, h.deck_len, ?_⟩
          · simp [h.tags_len]
          · simp
            omega
    · simp only [play, if_pos hbuf, if_neg hav] at hp
      cases hp
      exact match_check_inv h
  · simp only [play, if_neg hbuf] at hp
    cases hp
    exact h

/-- Invariant preservation for `disappear`. -/
theorem disappear_inv {α : Type} {n : Nat} {s : MatchGame α}
    (h : Inv n s) : Inv n (disappear s) := by
  refine ⟨?_, h.fills_len, h.deck_len, ?_⟩ <;> simp [disappear, h.tags_len]

/-- Invariant preservation for `restart`. -/
theorem restart_inv {α : Type} {n : Nat} {s : MatchGame α} {d : List α}
    (h : Inv n s) (hperm : d.Perm s.folder_images) : Inv n (restart s d) := by
  refine ⟨?_, ?_, ?_, h.buf_le⟩
  · simp [restart, h.tags_len]
  · simp [restart, h.tags_len, h.fills_len]
  · rw [show (restart s d).folder_images = d from rfl, hperm.length_eq,
      h.deck_len]

/-- Every step preserves the structural invariant. -/
theorem step_inv {α : Type} [DecidableEq α] {n : Nat}
    {s s' : MatchGame α} (h : Inv n s) (hs : Step s s') : Inv n s' := by
  cases hs with
  | click _ _ hp => exact play_inv h hp
  | timer hpend => exact disappear_inv h
  | restartStep _ hperm => exact restart_inv h hperm

/-- Every reachable state of a session on `images` satisfies the
structural invariant. -/
theorem reachable_inv {α : Type} [DecidableEq α] {images : List α}
    {s : MatchGame α} (h : Reachable images s) : Inv images.length s := by
  obtain ⟨deck, hperm, hsteps⟩ := h
  have hinit : Inv images.length (init deck) := by
    refine ⟨?_, ?_, ?_, ?_⟩ <;>
      simp [init, hperm.length_eq, Nat.two_mul]
  induction hsteps with
  | refl => exact hinit
  | tail _ hstep ih => exact step_inv ih hstep

/-- The initial state of any session is reachable. -/
theorem reachable_init {α : Type} [DecidableEq α] {images deck : List α}
    (h : deck.Perm (images ++ images)) : Reachable images (init deck) :=
  ⟨deck, h, Relation.ReflTransGen.refl⟩

/-- Reachability is closed under steps. -/
theorem reachable_step {α : Type} [DecidableEq α] {images : List α}
    {s s' : MatchGame α} (h : Reachable images s) (hs : Step s s') :
    Reachable images s' := by
  obtain ⟨d, hp, hr⟩ := h
  exact ⟨d, hp, hr.tail hs⟩

/-- Reachability is closed under events. -/
theorem reachable_stepEv {α : Type} [DecidableEq α] {images : List α}
    {s : MatchGame α} (h : Reachable images s) (e : Ev) :
    Reachable images (stepEv s e) := by
  cases e with
  | click id =>
      cases hp : play s id with
      | none => simpa [stepEv, hp] using h
      | some s' =>
          simpa [stepEv, hp] using
            reachable_step h (Step.click s id s' hp)
  | tick =>
      by_cases hpend : 0 < s.pending
      · simpa [stepEv, hpend] using reachable_step h (Step.timer s hpend)
      · simpa [stepEv, hpend] using h

/-- Reachability is closed under traces of events. -/
theorem reachable_runTrace {α : Type} [DecidableEq α] {images : List α}
    {s : MatchGame α} (h : Reachable images s) (evs : List Ev) :
    Reachable images (runTrace s evs) := by
  induction evs generalizing s with
  | nil => exact h
  | cons e rest ih => exact ih (reachable_stepEv h e)

/-! The claims. -/

set_option maxRecDepth 10000 in
/-- C1, counterexample: in a real play of the game — thirteen resolved
mismatches followed by revealing items 1 and 9, which hold the same tile
— the fourteenth pair evaluation has equal identifiers, yet the score
drops from 100 to 90.  This refutes the claim that an evaluated pair
with equal identifiers leaves the score unchanged once the attempt count
exceeds 13. -/
theorem c1_counterexample :
    Reachable images8 c1_pre ∧
    c1_pre.score = 100 ∧ c1_pre.count = 13 ∧
    play c1_pre 9 = some c1_post ∧
    c1_post.image_to_compare = [1, 1] ∧
    c1_post.count = 14 ∧ c1_post.score = 90 :=
  ⟨reachable_runTrace (reachable_init (List.Perm.refl (images8 ++ images8)))
      c1_trace,
    by decide, by decide, by decide, by decide, by decide, by decide⟩

/-- C1, amended: every completed pair evaluation increments the attempt
count, the score is unchanged on the first 13 evaluations, and once the
attempt count exceeds 13 every evaluated pair — match or mismatch alike
— decreases the score by exactly 10. -/
theorem c1_theorem {α : Type} [DecidableEq α] (s : MatchGame α)
    (h2 : s.image_to_compare.length = 2) :
    (match_check s).count = s.count + 1 ∧
    (match_check s).score =
      (if 13 < s.count + 1 then s.score - 10 else s.score) := by
  unfold match_check
  rw [if_pos h2]
  exact ⟨rfl, rfl⟩

/-- Witness for C1 at a concrete full-buffer state. -/
theorem c1_witness :
    (match_check c1_wstate).count = c1_wstate.count + 1 ∧
    (match_check c1_wstate).score =
      (if 13 < c1_wstate.count + 1 then c1_wstate.score - 10
       else c1_wstate.score) :=
  c1_theorem c1_wstate (by decide)

/-- C2, counterexample: revealing items 1 and 9 of a fresh session — an
equal pair — marks both slots `done` immediately, but the selection
buffer still holds the two identifiers (it is emptied only when the
scheduled `disappear` fires after the delay), and a further reveal
(clicking concealed item 3) is rejected, leaving the state unchanged.
This refutes the claim that the buffer is emptied immediately on a match
and that a further reveal is accepted right away. -/
theorem c2_counterexample :
    Reachable images8 c2_post ∧
    play c2_mid 9 = some c2_post ∧
    c2_post.image_to_compare = [1, 1] ∧
    c2_post.tags[0]? = some Tag.done ∧
    c2_post.tags[8]? = some Tag.done ∧
    c2_post.image_to_compare ≠ [] ∧
    c2_post.pending = 1 ∧
    play c2_post 3 = some c2_post :=
  ⟨reachable_runTrace (reachable_init (List.Perm.refl (images8 ++ images8)))
      [Ev.click 1, Ev.click 9],
    by decide, by decide, by decide, by decide, by decide, by decide,
    by decide⟩

/-- C2, amended: when the two buffered identifiers are equal, both
revealed slots become `done` immediately, but the selection buffer is
not emptied — a `disappear` callback is scheduled exactly as for a
mismatch, every further reveal is rejected until it fires, and only its
firing empties the buffer. -/
theorem c2_theorem {α : Type} [DecidableEq α] (s : MatchGame α)
    (h2 : s.image_to_compare.length = 2)
    (heq : s.image_to_compare[0]? = s.image_to_compare[1]?) :
    (match_check s).tags =
      s.tags.map (fun t => if t = Tag.selected then Tag.done else t) ∧
    (match_check s).image_to_compare = s.image_to_compare ∧
    (match_check s).pending = s.pending + 1 ∧
    (∀ id : Nat, play (match_check s) id = some (match_check s)) ∧
    (disappear (match_check s)).image_to_compare = [] := by
  have hbuf := match_check_buffer s
  refine ⟨?_, hbuf, ?_, ?_, ?_⟩
  · unfold match_check
    rw [if_pos h2]
    dsimp only
    rw [if_pos heq]
  · unfold match_check
    rw [if_pos h2]
  · intro id
    have hlen : (match_check s).image_to_compare.length = 2 := by
      rw [hbuf, h2]
    unfold play
    rw [hlen, if_neg (by omega)]
  · rfl

/-- Witness for C2 at a concrete state with an equal buffered pair. -/
theorem c2_witness :
    (match_check c2_wstate).tags =
      c2_wstate.tags.map
        (fun t => if t = Tag.selected then Tag.done else t) ∧
    (match_check c2_wstate).image_to_compare = c2_wstate.image_to_compare ∧
    (match_check c2_wstate).pending = c2_wstate.pending + 1 ∧
    (∀ id : Nat, play (match_check c2_wstate) id =
      some (match_check c2_wstate)) ∧
    (disappear (match_check c2_wstate)).image_to_compare = [] :=
  c2_theorem c2_wstate (by decide) (by decide)

/-- C3, counterexample: reveal item 1 of a fresh session, then click
RESTART.  In the restarted state slot 0 is still `selected` (not
concealed) and the selection buffer still holds tile 1, refuting the
claim that after restart every slot is concealed and the buffer is
empty. -/
theorem c3_counterexample :
    Reachable images8 c3_res ∧
    c3_res.score = 100 ∧ c3_res.count = 0 ∧
    c3_res.tags[0]? = some Tag.selected ∧
    c3_res.image_to_compare = [1] :=
  ⟨reachable_step
      (reachable_stepEv
        (reachable_init (List.Perm.refl (images8 ++ images8))) (Ev.click 1))
      (Step.restartStep _ deck0 (by decide)),
    by decide, by decide, by decide, by decide⟩

/-- C3, amended: `restart` resets the score to 100 and the attempt count
to 0, installs the freshly shuffled deck, and returns exactly the
`done` (matched) slots to the concealed state; a slot that was revealed
but unresolved stays revealed, and the selection buffer, the displayed
images and any pending concealment timer all survive the restart. -/
theorem c3_theorem {α : Type} (s : MatchGame α) (d : List α) :
    (restart s d).score = 100 ∧
    (restart s d).count = 0 ∧
    (restart s d).folder_images = d ∧
    (restart s d).tags =
      s.tags.map (fun t => if t = Tag.done then Tag.boxCurrent else t) ∧
    (restart s d).image_to_compare = s.image_to_compare ∧
    (restart s d).image_ids = s.image_ids ∧
    (restart s d).pending = s.pending :=
  ⟨rfl, rfl, rfl, rfl, rfl, rfl, rfl⟩

/-- C4: the code evaluated at the failing input.  A folder with nine
`.gif` files passes `directory_type` (it only demands at least 8), yet
the deck `2 * image_list` then holds 18 identifiers with 9 distinct
values — not 16 identifiers with 8 distinct values as the claim (and
the code's own comment about `16 images with 8 duplicate pairs`)
requires. -/
theorem c4_theorem :
    directory_type f9 = Except.ok "images" ∧
    (image_list f9).length = 9 ∧
    (folder_images_of (image_list f9)).length = 18 ∧
    (folder_images_of (image_list f9)).dedup.length = 9 :=
  ⟨rfl, by decide, by decide, by decide⟩

/-- C5: with an existing folder, `directory_type` fails with the
`must contain at least 8 gif images` error exactly when fewer than 8
files have extension `.gif`; in that case no game object is built
(`main` validates before constructing `MatchGame`), and with 8 or more
the validation succeeds and the session is created. -/
theorem c5_theorem (f : Folder) (deck : List String)
    (hp : f.present = true) :
    (directory_type f =
        Except.error (f.name ++ " must contain at least 8 gif images") ↔
      f.files.countP is_gif_split < 8) ∧
    (f.files.countP is_gif_split < 8 →
      ∀ g : MatchGame String, main_session f deck ≠ Except.ok g) ∧
    (8 ≤ f.files.countP is_gif_split →
      main_session f deck = Except.ok (init deck)) := by
  unfold main_session directory_type
  rw [hp]
  by_cases hc : 8 ≤ f.files.countP is_gif_split
  · rw [if_pos rfl, if_pos hc]
    refine ⟨⟨fun h => absurd h (by simp), fun h => absurd hc (by omega)⟩,
      fun h => absurd hc (by omega), fun _ => rfl⟩
  · rw [if_pos rfl, if_neg hc]
    exact ⟨⟨fun _ => by omega, fun _ => rfl⟩,
      fun _ g => by simp [Except.map], fun h => absurd h hc⟩

/-- Witness for C5 at a folder with exactly eight `.gif` files. -/
theorem c5_witness :
    main_session f8 (image_list f8) = Except.ok (init (image_list f8)) :=
  (c5_theorem f8 (image_list f8) (by decide)).2.2 (by decide)

/-- C6: clicking the rectangle of a slot that is `selected` (revealed)
or `done` (matched) is rejected and returns the state unchanged — no
slot state changes, the buffer is not extended, and score and attempt
count are untouched. -/
theorem c6_theorem {α : Type} [DecidableEq α] (s : MatchGame α) (i : Nat)
    (hi : i < 16)
    (ht : s.tags[i]? = some Tag.selected ∨ s.tags[i]? = some Tag.done) :
    play s (i + 1) = some s := by
  have htag : itemTag s (i + 1) ≠ some Tag.boxCurrent := by
    unfold itemTag
    rw [if_pos ⟨Nat.succ_le_succ (Nat.zero_le i), by omega⟩,
      Nat.add_sub_cancel]
    rcases ht with h | h <;> rw [h] <;> simp
  have hcond : ¬(itemTag s (i + 1) = some Tag.boxCurrent ∧
      itemFill s (i + 1) = some Fill.yellow) := fun hc => htag hc.1
  by_cases hbuf : s.image_to_compare.length ≤ 1
  · unfold play
    rw [if_pos hbuf, if_neg hcond, match_check_of_short s hbuf]
  · unfold play
    rw [if_neg hbuf]

/-- Witness for C6: clicking matched item 1 of `c6_state` changes
nothing. -/
theorem c6_witness : play c6_state 1 = some c6_state :=
  c6_theorem c6_state 0 (by decide) (Or.inr (by decide))

/-- C7: in every reachable state the selection buffer holds at most two
entries, and while it holds two, every click — on any canvas item — is
rejected and leaves the state unchanged. -/
theorem c7_theorem {α : Type} [DecidableEq α] (images : List α)
    (s : MatchGame α) (h : Reachable images s) :
    s.image_to_compare.length ≤ 2 ∧
    (s.image_to_compare.length = 2 →
      ∀ id : Nat, play s id = some s) := by
  refine ⟨(reachable_inv h).buf_le, fun h2 id => ?_⟩
  unfold play
  rw [h2, if_neg (by omega)]

/-- Witness for C7 at the reachable state with items 1 and 2 revealed. -/
theorem c7_witness :
    c7_state.image_to_compare.length ≤ 2 ∧
    (c7_state.image_to_compare.length = 2 →
      ∀ id : Nat, play c7_state id = some c7_state) :=
  c7_theorem images8 c7_state
    (reachable_runTrace (reachable_init (List.Perm.refl (images8 ++ images8)))
      [Ev.click 1, Ev.click 2])

/-- C8: the game-over test of `play` holds exactly when all 16
rectangles are tagged `done`. -/
theorem c8_theorem {α : Type} (s : MatchGame α) (h : s.tags.length = 16) :
    game_over_cond s = true ↔ ∀ t ∈ s.tags, t = Tag.done := by
  unfold game_over_cond
  rw [Nat.beq_eq_true_eq, ← h, List.countP_eq_length]
  simp

/-- Witness for C8: the all-`done` board reports game over. -/
theorem c8_witness : game_over_cond c8_state = true :=
  (c8_theorem c8_state (by decide)).mpr (by decide)

/-- C9, counterexample: reveal the mismatching items 1 and 2, then click
RESTART while the concealment timer is still pending.  The timer is not
cancelled (`pending` is still positive after restart), and when it fires
it mutates the restarted board: the buffer goes from `[1, 2]` to `[]`
and slot 0 goes from `selected` to concealed.  This refutes the claim
that a stale timer from a prior deal can never mutate the board produced
by the restart. -/
theorem c9_counterexample :
    Reachable images8 c9_res ∧
    0 < c9_res.pending ∧
    c9_res.image_to_compare = [1, 2] ∧
    c9_res.tags[0]? = some Tag.selected ∧
    (disappear c9_res).image_to_compare = [] ∧
    (disappear c9_res).tags[0]? = some Tag.boxCurrent ∧
    disappear c9_res ≠ c9_res :=
  ⟨reachable_step
      (reachable_runTrace
        (reachable_init (List.Perm.refl (images8 ++ images8)))
        [Ev.click 1, Ev.click 2])
      (Step.restartStep _ deck0 (by decide)),
    by decide, by decide, by decide, by decide, by decide, by decide⟩

/-- C9, amended: `restart` does not cancel a pending concealment timer —
`pending` and the buffer survive the restart — and when the stale timer
fires on the restarted board it deletes the image items, empties the
selection buffer and reconceals every still-`selected` slot. -/
theorem c9_theorem {α : Type} (s : MatchGame α) (d : List α) :
    (restart s d).pending = s.pending ∧
    (restart s d).image_to_compare = s.image_to_compare ∧
    (disappear (restart s d)).image_to_compare = [] ∧
    (disappear (restart s d)).image_ids = [] ∧
    (disappear (restart s d)).tags =
      (restart s d).tags.map
        (fun t => if t = Tag.selected then Tag.boxCurrent else t) :=
  ⟨rfl, rfl, rfl, rfl, rfl⟩

/-- C10: in every reachable state of a session built from at least 8
images, a click on any canvas item id is total — the deck index
`folder_images[item_id - 1]` is only evaluated behind the
`"box current"` tag guard, which only rectangles 1..16 can carry, and
the deck holds at least 16 identifiers, so no click returns the
`IndexError` outcome. -/
theorem c10_theorem {α : Type} [DecidableEq α] (images : List α)
    (s : MatchGame α) (h8 : 8 ≤ images.length)
    (hr : Reachable images s) (id : Nat) :
    (play s id).isSome = true := by
  have hinv := reachable_inv hr
  by_cases hbuf : s.image_to_compare.length ≤ 1
  · by_cases hcond : itemTag s id = some Tag.boxCurrent ∧
        itemFill s id = some Fill.yellow
    · have hid : 1 ≤ id ∧ id ≤ 16 := by
        by_contra hno
        have himg : itemTag s id = some Tag.image ∨ itemTag s id = none := by
          unfold itemTag
          rw [if_neg hno]
          split
          · exact Or.inl rfl
          · exact Or.inr rfl
        rcases himg with h | h <;> rw [h] at hcond <;>
          exact absurd hcond.1 (by simp)
      have hlt : id - 1 < s.folder_images.length := by
        rw [hinv.deck_len]
        omega
      unfold play
      rw [if_pos hbuf, if_pos hcond, List.getElem?_eq_getElem hlt]
      rfl
    · unfold play
      rw [if_pos hbuf, if_neg hcond]
      rfl
  · unfold play
    rw [if_neg hbuf]
    rfl

/-- Witness for C10: the first click of a fresh session succeeds. -/
theorem c10_witness : (play (init deck0) 1).isSome = true :=
  c10_theorem images8 (init deck0) (by decide)
    (reachable_init (List.Perm.refl (images8 ++ images8))) 1

end Matchit
